import Mathlib

/-!
Shallow embedding of the tooltip visibility lifecycle from
`src/packages/melt/src/lib/builders/Tooltip.svelte.ts`.

The reactive class state is modelled as an explicit record `TooltipState`;
each event handler of the source becomes a pure state-transition function,
and the two `window.setTimeout` callbacks become explicit `fireOpenTimeout`
and `fireCloseTimeout` transitions, with the pending timer handles modelled
as `Option` values carrying the data the source closure captures (the delay
passed to `setTimeout`, the `reason` argument of `#openTooltip`, the
`isBlur` argument of `#closeTooltip`).
-/

namespace Melt

/-- The `OpenReason` union type: `"pointer" | "focus"`. -/
inductive OpenReason
  | pointer
  | focus
  deriving DecidableEq, Repr

/-- The `pointerType` field of a DOM pointer event, as far as the source
inspects it (it only ever compares against `"touch"`). -/
inductive PointerType
  | mouse
  | touch
  | pen
  deriving DecidableEq, Repr

/-- The `key` field of a keyboard event, as far as the source inspects it
(it only ever compares against `"Escape"`). -/
inductive Key
  | escape
  | other
  deriving DecidableEq, Repr

/-- The data captured by the `setTimeout` closure in `#openTooltip`:
the delay it was scheduled with and the `reason` argument. -/
structure OpenTimer where
  delay : Nat
  reason : OpenReason
  deriving DecidableEq, Repr

/-- The data captured by the `setTimeout` closure in `#closeTooltip`:
the delay it was scheduled with and the `isBlur` argument. -/
structure CloseTimer where
  delay : Nat
  isBlur : Bool
  deriving DecidableEq, Repr

/-- The configuration values the tooltip reads (after `extract` with the
documented defaults). Positioning options and arrow size play no role in
the visibility lifecycle and are omitted. -/
structure TooltipProps where
  closeOnPointerDown : Bool
  openDelay : Nat
  closeDelay : Nat
  disableHoverableContent : Bool
  deriving DecidableEq, Repr

/-- The default configuration: `closeOnPointerDown = true`,
`openDelay = 1000`, `closeDelay = 0`, `disableHoverableContent = false`. -/
def defaultProps : TooltipProps :=
  { closeOnPointerDown := true
    openDelay := 1000
    closeDelay := 0
    disableHoverableContent := false }

/-- The mutable fields of the `Tooltip` class that drive visibility:
`open` (uncontrolled mode, so the `Synced` wrapper is a plain boolean),
`#openReason`, `#clickedTrigger`, `#isPointerInsideTrigger`,
`#isPointerInsideContent`, `#isMouseInTooltipArea`, `#openTimeout` and
`#closeTimeout`. -/
structure TooltipState where
  open_ : Bool
  openReason : Option OpenReason
  clickedTrigger : Bool
  isPointerInsideTrigger : Bool
  isPointerInsideContent : Bool
  isMouseInTooltipArea : Bool
  openTimeout : Option OpenTimer
  closeTimeout : Option CloseTimer
  deriving DecidableEq, Repr

/-- The initial state of a freshly constructed tooltip. -/
def initialState : TooltipState :=
  { open_ := false
    openReason := none
    clickedTrigger := false
    isPointerInsideTrigger := false
    isPointerInsideContent := false
    isMouseInTooltipArea := false
    openTimeout := none
    closeTimeout := none }

/-- An axis-aligned rectangle (a DOMRect as used by the hull helpers). -/
structure Rect where
  left : Int
  top : Int
  right : Int
  bottom : Int
  deriving DecidableEq, Repr

/-- Modelled from the spec: the corner points of an axis-aligned rectangle,
used by `GraceAreaTracker.buildHull` (the source helper
`makeHullFromElements` lives in `$lib/utils/polygon`, which is not part of
the provided sources). -/
def rectCorners (r : Rect) : List (Int × Int) :=
  [(r.left, r.top), (r.right, r.top), (r.right, r.bottom), (r.left, r.bottom)]

/-- Modelled from the spec: 2D cross product of `a - o` and `b - o`,
the primitive of the convex-hull containment test. -/
def cross (o a b : Int × Int) : Int :=
  (a.1 - o.1) * (b.2 - o.2) - (a.2 - o.2) * (b.1 - o.1)

/-- Modelled from the spec: `GraceAreaTracker.buildHull` — the hull is
determined by the corner points of all given rectangles (the source helper
`makeHullFromElements` of `$lib/utils/polygon` is not in the provided
sources). We keep the full corner-point set; containment below is convex
hull membership of this set. -/
def makeHullFromElements (rects : List Rect) : List (Int × Int) :=
  rects.foldr (fun r acc => rectCorners r ++ acc) []

/-- Modelled from the spec: `GraceAreaTracker.contains` — whether a point
lies in the convex hull of the given points, boundary inclusive (the source
helper `isPointerInGraceArea` of `$lib/utils/pointer` is not in the
provided sources). A point is in the convex hull of a finite set iff it
satisfies every supporting half-plane: for each directed pair `(a, b)` of
set points with the whole set on the non-negative side of line `a → b`,
the point is on that side too. -/
def isPointerInGraceArea (p : Int × Int) (pts : List (Int × Int)) : Bool :=
  pts.all fun a => pts.all fun b =>
    !(pts.all fun s => decide (0 ≤ cross a b s)) || decide (0 ≤ cross a b p)

/-- `#openTooltip(reason)`: clear any pending close timeout; if no open
timeout is pending, schedule one with `openDelay`, capturing `reason`. -/
def openTooltip (cfg : TooltipProps) (s : TooltipState) (reason : OpenReason) :
    TooltipState :=
  let s1 := { s with closeTimeout := none }
  if s1.openTimeout.isSome then s1
  else { s1 with openTimeout := some ⟨cfg.openDelay, reason⟩ }

/-- `#closeTooltip(isBlur?)`: clear any pending open timeout; if called
from blur while the mouse is in the tooltip area, set `#openReason` to
`"pointer"` and return; otherwise, if no close timeout is pending,
schedule one with `closeDelay`, capturing `isBlur`. -/
def closeTooltip (cfg : TooltipProps) (s : TooltipState) (isBlur : Bool) :
    TooltipState :=
  let s1 := { s with openTimeout := none }
  if isBlur && s1.isMouseInTooltipArea then
    { s1 with openReason := some OpenReason.pointer }
  else if s1.closeTimeout.isSome then s1
  else { s1 with closeTimeout := some ⟨cfg.closeDelay, isBlur⟩ }

/-- The `setTimeout` callback registered by `#openTooltip` firing:
`open = true`, `#openReason = #openReason ?? reason`, handle cleared. -/
def fireOpenTimeout (s : TooltipState) : TooltipState :=
  match s.openTimeout with
  | none => s
  | some t =>
    { s with open_ := true
             openReason := some (s.openReason.getD t.reason)
             openTimeout := none }

/-- The `setTimeout` callback registered by `#closeTooltip` firing:
`open = false`, `#openReason = null`, `#clickedTrigger = false` when the
scheduling call was a blur, handle cleared. -/
def fireCloseTimeout (s : TooltipState) : TooltipState :=
  match s.closeTimeout with
  | none => s
  | some t =>
    { s with open_ := false
             openReason := none
             clickedTrigger := if t.isBlur then false else s.clickedTrigger
             closeTimeout := none }

/-- `trigger.onpointerdown`: if `closeOnPointerDown`, set `open = false`,
set `#clickedTrigger = true`, and clear any pending open timeout. -/
def onTriggerPointerdown (cfg : TooltipProps) (s : TooltipState) :
    TooltipState :=
  if !cfg.closeOnPointerDown then s
  else { s with open_ := false, clickedTrigger := true, openTimeout := none }

/-- `trigger.onpointerenter`: record the pointer inside the trigger; for a
touch pointer return, otherwise `#openTooltip("pointer")`. -/
def onTriggerPointerenter (cfg : TooltipProps) (s : TooltipState)
    (pt : PointerType) : TooltipState :=
  let s1 := { s with isPointerInsideTrigger := true }
  if pt = PointerType.touch then s1
  else openTooltip cfg s1 OpenReason.pointer

/-- `trigger.onpointerleave`: record the pointer outside the trigger; for a
touch pointer return, otherwise clear any pending open timeout. -/
def onTriggerPointerleave (s : TooltipState) (pt : PointerType) :
    TooltipState :=
  let s1 := { s with isPointerInsideTrigger := false }
  if pt = PointerType.touch then s1
  else { s1 with openTimeout := none }

/-- `trigger.onfocus`: ignored when `#clickedTrigger` is set, otherwise
`#openTooltip("focus")`. -/
def onTriggerFocus (cfg : TooltipProps) (s : TooltipState) : TooltipState :=
  if s.clickedTrigger then s
  else openTooltip cfg s OpenReason.focus

/-- `trigger.onblur`: `#closeTooltip(true)`. -/
def onTriggerBlur (cfg : TooltipProps) (s : TooltipState) : TooltipState :=
  closeTooltip cfg s true

/-- `content.onpointerenter`: record the pointer inside the content and
`#openTooltip("pointer")`. The source handler takes no event parameter and
never inspects `pointerType`; the parameter is kept to state claims about
touch events. -/
def onContentPointerenter (cfg : TooltipProps) (s : TooltipState)
    (_pt : PointerType) : TooltipState :=
  openTooltip cfg { s with isPointerInsideContent := true } OpenReason.pointer

/-- `content.onpointerleave`: record the pointer outside the content; the
source handler never inspects `pointerType`. -/
def onContentPointerleave (s : TooltipState) (_pt : PointerType) :
    TooltipState :=
  { s with isPointerInsideContent := false }

/-- `content.onpointerdown`: `#openTooltip("pointer")`. -/
def onContentPointerdown (cfg : TooltipProps) (s : TooltipState) :
    TooltipState :=
  openTooltip cfg s OpenReason.pointer

/-- The document `keydown` listener: for `Escape`, clear any pending open
timeout and set `open = false`. -/
def onKeydown (s : TooltipState) (k : Key) : TooltipState :=
  if k ≠ Key.escape then s
  else { s with openTimeout := none, open_ := false }

/-- `#handleScroll`: return when not open or when the target is neither an
`Element` nor a `Document`; otherwise, if the target contains the trigger
element or the tooltip is open, `#closeTooltip()`. `targetIsNode` models
the `instanceof` guard, `triggerExists` whether `getElementById` finds the
trigger, `targetContainsTrigger` the containment query. -/
def handleScroll (cfg : TooltipProps) (s : TooltipState)
    (targetIsNode triggerExists targetContainsTrigger : Bool) : TooltipState :=
  if !s.open_ then s
  else if !targetIsNode then s
  else if (triggerExists && targetContainsTrigger) || s.open_ then
    closeTooltip cfg s false
  else s

/-- The shared `onfocusout` handler: after the microtask, if neither the
content nor the trigger contains the active element, set `open = false`.
`focusStillInside` models the containment check. -/
def onFocusout (s : TooltipState) (focusStillInside : Bool) : TooltipState :=
  if focusStillInside then s else { s with open_ := false }

/-- The document `mousemove` listener installed by the constructor effect.
It only exists while `open` is true. `els` is `none` when either element
lookup fails (forcing a close); otherwise it carries the trigger and
content rectangles. The hull is built from the trigger alone when
`disableHoverableContent` is set. When the recomputed
`#isMouseInTooltipArea` is false and `#openReason` is `"pointer"`,
`#closeTooltip()` runs. -/
def onMousemove (cfg : TooltipProps) (s : TooltipState)
    (els : Option (Rect × Rect)) (p : Int × Int) : TooltipState :=
  if !s.open_ then s
  else
    match els with
    | none => if s.open_ then closeTooltip cfg s false else s
    | some (triggerRect, contentRect) =>
      let polygonElements :=
        if cfg.disableHoverableContent then [triggerRect]
        else [triggerRect, contentRect]
      let polygon := makeHullFromElements polygonElements
      let inArea := s.isPointerInsideContent || s.isPointerInsideTrigger
        || isPointerInGraceArea p polygon
      let s1 := { s with isMouseInTooltipArea := inArea }
      if s1.openReason ≠ some OpenReason.pointer then s1
      else if !inArea then closeTooltip cfg s1 false
      else s1

/-- The events the tooltip reacts to: element handlers, document listeners,
and the two timer callbacks firing. -/
inductive Event
  | triggerPointerdown
  | triggerPointerenter (pt : PointerType)
  | triggerPointerleave (pt : PointerType)
  | triggerFocus
  | triggerBlur
  | contentPointerenter (pt : PointerType)
  | contentPointerleave (pt : PointerType)
  | contentPointerdown
  | keydown (k : Key)
  | scroll (targetIsNode triggerExists targetContainsTrigger : Bool)
  | mousemove (els : Option (Rect × Rect)) (p : Int × Int)
  | focusout (focusStillInside : Bool)
  | fireOpen
  | fireClose
  deriving DecidableEq, Repr

/-- The single-event transition function of the tooltip. -/
def step (cfg : TooltipProps) (s : TooltipState) : Event → TooltipState
  | .triggerPointerdown => onTriggerPointerdown cfg s
  | .triggerPointerenter pt => onTriggerPointerenter cfg s pt
  | .triggerPointerleave pt => onTriggerPointerleave s pt
  | .triggerFocus => onTriggerFocus cfg s
  | .triggerBlur => onTriggerBlur cfg s
  | .contentPointerenter pt => onContentPointerenter cfg s pt
  | .contentPointerleave pt => onContentPointerleave s pt
  | .contentPointerdown => onContentPointerdown cfg s
  | .keydown k => onKeydown s k
  | .scroll tn te tc => handleScroll cfg s tn te tc
  | .mousemove els p => onMousemove cfg s els p
  | .focusout f => onFocusout s f
  | .fireOpen => fireOpenTimeout s
  | .fireClose => fireCloseTimeout s

/-- Whether an event is the close-timer callback firing. -/
def isFireClose : Event → Bool
  | .fireClose => true
  | _ => false

/-- Whether a pending close timer was scheduled by the blur path. -/
def isBlurCloseTimer : Option CloseTimer → Bool
  | some t => t.isBlur
  | none => false

/-! ### Helper lemmas -/

theorem openTooltip_closeTimeout_eq (cfg : TooltipProps) (s : TooltipState)
    (r : OpenReason) : (openTooltip cfg s r).closeTimeout = none := by
  unfold openTooltip
  dsimp only
  split <;> rfl

theorem closeTooltip_openTimeout_eq (cfg : TooltipProps) (s : TooltipState)
    (b : Bool) : (closeTooltip cfg s b).openTimeout = none := by
  unfold closeTooltip
  dsimp only
  split
  · rfl
  · split <;> rfl

theorem closeTooltip_open_eq (cfg : TooltipProps) (s : TooltipState)
    (b : Bool) : (closeTooltip cfg s b).open_ = s.open_ := by
  unfold closeTooltip
  dsimp only
  split
  · rfl
  · split <;> rfl

theorem closeTooltip_clickedTrigger_eq (cfg : TooltipProps)
    (s : TooltipState) (b : Bool) :
    (closeTooltip cfg s b).clickedTrigger = s.clickedTrigger := by
  unfold closeTooltip
  dsimp only
  split
  · rfl
  · split <;> rfl

/-! ### Claims -/

/-- C1 (amended): of the close paths, only the close-timer callback resets
`openReason` to `null`. The Escape keydown handler, the trigger pointerdown
handler, and the focus-out handler all set `open` to `false` but leave
`openReason` untouched. -/
theorem tooltip_close_paths_reason_reset (cfg : TooltipProps)
    (s : TooltipState) (b : Bool) (d : Nat) :
    (step cfg { s with closeTimeout := some ⟨d, b⟩ } Event.fireClose).open_
      = false ∧
    (step cfg { s with closeTimeout := some ⟨d, b⟩ } Event.fireClose).openReason
      = none ∧
    (step cfg s (.keydown Key.escape)).open_ = false ∧
    (step cfg s (.keydown Key.escape)).openReason = s.openReason ∧
    (step { cfg with closeOnPointerDown := true } s
      Event.triggerPointerdown).open_ = false ∧
    (step { cfg with closeOnPointerDown := true } s
      Event.triggerPointerdown).openReason = s.openReason ∧
    (step cfg s (.focusout false)).open_ = false ∧
    (step cfg s (.focusout false)).openReason = s.openReason := by
  refine ⟨rfl, rfl, ?_, ?_, rfl, rfl, rfl, rfl⟩ <;>
    simp [step, onKeydown]

/-- C1 counterexample: pressing Escape on an open tooltip with
`openReason = "pointer"` leaves the tooltip fully closed (no pending close
timer) yet `openReason` is still `"pointer"`, not `null`. -/
theorem tooltip_escape_stale_reason :
    (step defaultProps
      { initialState with open_ := true, openReason := some OpenReason.pointer }
      (.keydown Key.escape)).open_ = false ∧
    (step defaultProps
      { initialState with open_ := true, openReason := some OpenReason.pointer }
      (.keydown Key.escape)).closeTimeout = none ∧
    (step defaultProps
      { initialState with open_ := true, openReason := some OpenReason.pointer }
      (.keydown Key.escape)).openReason = some OpenReason.pointer := by
  decide

/-- C2 (amended): pressing Escape sets `open` to `false` synchronously (no
timer involved, regardless of `closeDelay`) and cancels a pending open
timer, but it does not cancel a pending close timer — `closeTimeout` is
left exactly as it was. A non-Escape key changes nothing. -/
theorem tooltip_escape_immediate_close (cfg : TooltipProps)
    (s : TooltipState) :
    (step cfg s (.keydown Key.escape)).open_ = false ∧
    (step cfg s (.keydown Key.escape)).openTimeout = none ∧
    (step cfg s (.keydown Key.escape)).closeTimeout = s.closeTimeout ∧
    step cfg s (.keydown Key.other) = s := by
  refine ⟨?_, ?_, ?_, ?_⟩ <;> simp [step, onKeydown]

/-- C2 counterexample: with a close timer pending (scheduled with
`closeDelay = 2000`), pressing Escape while open leaves that close timer
pending — it is not cancelled. -/
theorem tooltip_escape_keeps_close_timer :
    (step defaultProps
      { initialState with open_ := true, closeTimeout := some ⟨2000, false⟩ }
      (.keydown Key.escape)).closeTimeout = some ⟨2000, false⟩ := by
  decide

/-- C3 (amended): touch pointerenter/pointerleave on the trigger leave both
timers untouched, and content pointerleave never touches timers; but the
content pointerenter handler ignores `pointerType` entirely — for every
pointer type, a touch included, it dispatches `#openTooltip("pointer")`,
starting the open timer and cancelling a pending close. -/
theorem tooltip_touch_filtering (cfg : TooltipProps) (s : TooltipState)
    (pt : PointerType) :
    (step cfg s (.triggerPointerenter PointerType.touch)).openTimeout
      = s.openTimeout ∧
    (step cfg s (.triggerPointerenter PointerType.touch)).closeTimeout
      = s.closeTimeout ∧
    (step cfg s (.triggerPointerleave PointerType.touch)).openTimeout
      = s.openTimeout ∧
    (step cfg s (.triggerPointerleave PointerType.touch)).closeTimeout
      = s.closeTimeout ∧
    step cfg s (.contentPointerenter pt)
      = openTooltip cfg { s with isPointerInsideContent := true }
          OpenReason.pointer ∧
    (step cfg s (.contentPointerleave pt)).openTimeout = s.openTimeout ∧
    (step cfg s (.contentPointerleave pt)).closeTimeout = s.closeTimeout := by
  refine ⟨?_, ?_, ?_, ?_, rfl, rfl, rfl⟩ <;>
    simp [step, onTriggerPointerenter, onTriggerPointerleave]

/-- C3 counterexample: a pointerenter on the content with
`pointerType = "touch"` starts the open timer from the closed state. -/
theorem tooltip_content_touch_enter_starts_timer :
    (step defaultProps initialState
      (.contentPointerenter PointerType.touch)).openTimeout
      = some ⟨1000, OpenReason.pointer⟩ := by
  decide

/-- C4 (amended): while open, every scroll event whose target is an
`Element` or `Document` goes through the deferred close path
(`#closeTooltip`, honoring `closeDelay`), whether or not the target
contains the trigger — the `target.contains(trigger) || open` test is
always true once the open guard has passed. Only a closed tooltip or a
non-node target leaves the state unchanged. -/
theorem tooltip_scroll_close_policy (cfg : TooltipProps) (s : TooltipState)
    (te tc : Bool) :
    step cfg { s with open_ := true } (.scroll true te tc)
      = closeTooltip cfg { s with open_ := true } false ∧
    step cfg { s with open_ := false } (.scroll true te tc)
      = { s with open_ := false } ∧
    step cfg s (.scroll false te tc) = s ∧
    (step cfg { s with open_ := true, closeTimeout := none }
      (.scroll true te tc)).closeTimeout = some ⟨cfg.closeDelay, false⟩ := by
  refine ⟨?_, ?_, ?_, ?_⟩
  · simp [step, handleScroll]
  · simp [step, handleScroll]
  · cases hs : s.open_ <;> simp [step, handleScroll, hs]
  · simp [step, handleScroll, closeTooltip]

/-- C4 counterexample: while open, a scroll event whose target does not
contain the trigger does not leave the state unchanged — it schedules a
deferred close. -/
theorem tooltip_scroll_noncontaining_target_closes :
    (step defaultProps { initialState with open_ := true }
      (.scroll true true false)).closeTimeout = some ⟨0, false⟩ ∧
    step defaultProps { initialState with open_ := true }
      (.scroll true true false) ≠ { initialState with open_ := true } := by
  decide

/-- C5: at most one of the two timers is pending at any instant — every
event preserves `openTimeout = none ∨ closeTimeout = none`; an open request
while the open timer is already pending does not reset it; scheduling an
open cancels any pending close; scheduling a close cancels any pending
open; and a second scroll-close request while a close is already pending is
a complete no-op (only one close timer ever exists). -/
theorem tooltip_timer_mutual_exclusion (cfg : TooltipProps)
    (s : TooltipState) (e : Event) (t : OpenTimer)
    (h : s.openTimeout = none ∨ s.closeTimeout = none) :
    ((step cfg s e).openTimeout = none ∨ (step cfg s e).closeTimeout = none) ∧
    (step cfg { s with openTimeout := some t }
      (.triggerPointerenter PointerType.mouse)).openTimeout = some t ∧
    (step cfg s (.triggerPointerenter PointerType.mouse)).closeTimeout
      = none ∧
    (step cfg { s with open_ := true } (.scroll true true true)).openTimeout
      = none ∧
    step cfg (step cfg { s with open_ := true } (.scroll true true true))
      (.scroll true true true)
      = step cfg { s with open_ := true } (.scroll true true true) := by
  refine ⟨?_, ?_, ?_, ?_, ?_⟩
  · cases e with
    | triggerPointerdown =>
      simp only [step, onTriggerPointerdown]
      split
      · exact h
      · exact Or.inl rfl
    | triggerPointerenter pt =>
      simp only [step, onTriggerPointerenter]
      split
      · exact h
      · exact Or.inr (openTooltip_closeTimeout_eq ..)
    | triggerPointerleave pt =>
      simp only [step, onTriggerPointerleave]
      split
      · exact h
      · exact Or.inl rfl
    | triggerFocus =>
      simp only [step, onTriggerFocus]
      split
      · exact h
      · exact Or.inr (openTooltip_closeTimeout_eq ..)
    | triggerBlur =>
      exact Or.inl (closeTooltip_openTimeout_eq ..)
    | contentPointerenter pt =>
      exact Or.inr (openTooltip_closeTimeout_eq ..)
    | contentPointerleave pt =>
      exact h
    | contentPointerdown =>
      exact Or.inr (openTooltip_closeTimeout_eq ..)
    | keydown k =>
      simp only [step, onKeydown]
      split
      · exact h
      · exact Or.inl rfl
    | scroll tn te tc =>
      simp only [step, handleScroll]
      split
      · exact h
      · split
        · exact h
        · split
          · exact Or.inl (closeTooltip_openTimeout_eq ..)
          · exact h
    | mousemove els p =>
      simp only [step, onMousemove]
      split
      · exact h
      · cases els with
        | none =>
          dsimp only
          split
          · exact Or.inl (closeTooltip_openTimeout_eq ..)
          · exact h
        | some pr =>
          obtain ⟨tr, ct⟩ := pr
          dsimp only
          split_ifs <;>
            first
              | exact h
              | exact Or.inl (closeTooltip_openTimeout_eq ..)
    | focusout f =>
      simp only [step, onFocusout]
      split
      · exact h
      · exact h
    | fireOpen =>
      simp only [step, fireOpenTimeout]
      cases s.openTimeout with
      | none => exact h
      | some t' => exact Or.inl rfl
    | fireClose =>
      simp only [step, fireCloseTimeout]
      cases s.closeTimeout with
      | none => exact h
      | some t' => exact Or.inr rfl
  · simp [step, onTriggerPointerenter, openTooltip]
  · exact openTooltip_closeTimeout_eq ..
  · simp [step, handleScroll, closeTooltip_openTimeout_eq]
  · cases hc : s.closeTimeout with
    | none => simp [step, handleScroll, closeTooltip, hc]
    | some t' => simp [step, handleScroll, closeTooltip, hc]

/-- C5 witness: a concrete instantiation of the timer-exclusion theorem at
the initial state, discharging the invariant hypothesis. -/
theorem tooltip_timer_mutual_exclusion_witness :
    (initialState.openTimeout = none ∨ initialState.closeTimeout = none) ∧
    ((step defaultProps initialState Event.triggerFocus).openTimeout = none ∨
      (step defaultProps initialState Event.triggerFocus).closeTimeout
        = none) :=
  ⟨Or.inl rfl,
    (tooltip_timer_mutual_exclusion defaultProps initialState
      Event.triggerFocus ⟨1000, OpenReason.pointer⟩ (Or.inl rfl)).1⟩

/-- C7 (amended): a focus request arriving while the open timer is pending
is ignored — the pending timer (and the reason it captured) is not reset —
and when the timer fires, an already-set `openReason` is kept
(`openReason ?? reason`); hence pointer-enter followed by focus yields
`openReason = "pointer"`. The open-timer path never overwrites a set
reason; the one overwrite while open is the blur-with-pointer-in-grace-area
path, which sets it to `"pointer"`. -/
theorem tooltip_open_reason_first_wins (cfg : TooltipProps)
    (s : TooltipState) (t : OpenTimer) (r : OpenReason) :
    step cfg
      { s with
          openTimeout := some t, closeTimeout := none,
          clickedTrigger := false } Event.triggerFocus
      = { s with
          openTimeout := some t, closeTimeout := none,
          clickedTrigger := false } ∧
    (step cfg { s with openReason := some r } Event.fireOpen).openReason
      = some r ∧
    (let s0 := { s with
                  openTimeout := none, closeTimeout := none,
                  clickedTrigger := false, openReason := none }
     let s1 := step cfg s0 (.triggerPointerenter PointerType.mouse)
     let s2 := step cfg s1 Event.triggerFocus
     let s3 := step cfg s2 Event.fireOpen
     s2.openTimeout = s1.openTimeout ∧
     s3.open_ = true ∧ s3.openReason = some OpenReason.pointer) := by
  refine ⟨?_, ?_, ?_⟩
  · simp [step, onTriggerFocus, openTooltip]
  · simp only [step, fireOpenTimeout]
    cases ho : ({ s with openReason := some r } : TooltipState).openTimeout
      with
    | none => rfl
    | some t' => simp
  · simp [step, onTriggerPointerenter, onTriggerFocus, openTooltip,
      fireOpenTimeout]

/-- C7 counterexample: with the tooltip open, `openReason = "focus"` and
the pointer inside the grace area, a blur on the trigger overwrites
`openReason` to `"pointer"` while `open` stays `true` — so `openReason` is
not immutable while the tooltip remains open. -/
theorem tooltip_blur_overwrites_focus_reason :
    (step defaultProps
      { initialState with
          open_ := true, openReason := some OpenReason.focus,
          isMouseInTooltipArea := true } Event.triggerBlur).open_ = true ∧
    (step defaultProps
      { initialState with
          open_ := true, openReason := some OpenReason.focus,
          isMouseInTooltipArea := true } Event.triggerBlur).openReason
      = some OpenReason.pointer := by
  decide

/-- C8: a blur on the trigger while the pointer is in the grace area does
not close the tooltip — `open` stays as it was, no close timer is
scheduled (the whole state is unchanged except that the pending open timer
is cleared and `openReason` becomes `"pointer"`); when the pointer is not
in the grace area, a close timer is scheduled with `closeDelay` (flagged as
coming from blur) and `open` is untouched for now. -/
theorem tooltip_blur_hover_takeover (cfg : TooltipProps)
    (s : TooltipState) :
    step cfg { s with open_ := true, isMouseInTooltipArea := true }
      Event.triggerBlur
      = { s with
            open_ := true, isMouseInTooltipArea := true,
            openTimeout := none, openReason := some OpenReason.pointer } ∧
    (step cfg { s with isMouseInTooltipArea := false, closeTimeout := none }
      Event.triggerBlur).closeTimeout = some ⟨cfg.closeDelay, true⟩ ∧
    (step cfg { s with isMouseInTooltipArea := false, closeTimeout := none }
      Event.triggerBlur).open_ = s.open_ ∧
    (step cfg { s with isMouseInTooltipArea := false, closeTimeout := none }
      Event.triggerBlur).openTimeout = none := by
  refine ⟨?_, ?_, ?_, ?_⟩ <;> simp [step, onTriggerBlur, closeTooltip]

/-- C9: with `closeOnPointerDown`, a pointerdown on the trigger
synchronously sets `open` to `false` (the deferred close path is not
involved — `closeTimeout` is untouched), cancels the pending open timer,
and sets `clickedTrigger`, so that a subsequent focus on the trigger is a
complete no-op (no open timer scheduled). -/
theorem tooltip_pointerdown_suppresses_focus_open (cfg : TooltipProps)
    (s : TooltipState) :
    (let cfg1 := { cfg with closeOnPointerDown := true }
     let s1 := step cfg1 s Event.triggerPointerdown
     s1.open_ = false ∧ s1.openTimeout = none ∧ s1.clickedTrigger = true ∧
     s1.closeTimeout = s.closeTimeout ∧
     step cfg1 s1 Event.triggerFocus = s1) := by
  simp [step, onTriggerPointerdown, onTriggerFocus]

/-- C10: once `clickedTrigger` is set, the only transition that resets it
to `false` is the close-timer callback of a timer that was scheduled by the
blur path (`isBlur = true`) — captured as an exact boolean equation over
all events; while it is set, a focus on the trigger changes nothing; and
close timers scheduled by non-blur paths (here: a scroll-initiated close)
carry `isBlur = false`, so their firing never resets `clickedTrigger`. -/
theorem tooltip_clickedTrigger_persistence (cfg : TooltipProps)
    (s : TooltipState) (e : Event) :
    (step cfg { s with clickedTrigger := true } e).clickedTrigger
      = !(isFireClose e && isBlurCloseTimer s.closeTimeout) ∧
    step cfg { s with clickedTrigger := true } Event.triggerFocus
      = { s with clickedTrigger := true } ∧
    (step cfg { s with open_ := true, closeTimeout := none }
      (.scroll true true true)).closeTimeout
      = some ⟨cfg.closeDelay, false⟩ := by
  refine ⟨?_, ?_, ?_⟩
  · cases e with
    | triggerPointerdown =>
      simp only [step, onTriggerPointerdown, isFireClose]
      split <;> simp
    | triggerPointerenter pt =>
      simp only [step, onTriggerPointerenter, isFireClose]
      split
      · simp
      · simp [openTooltip, apply_ite TooltipState.clickedTrigger]
    | triggerPointerleave pt =>
      simp only [step, onTriggerPointerleave, isFireClose]
      split <;> simp
    | triggerFocus =>
      simp only [step, onTriggerFocus, isFireClose]
      split
      · simp
      · simp [openTooltip, apply_ite TooltipState.clickedTrigger]
    | triggerBlur =>
      simp [step, onTriggerBlur, closeTooltip,
        apply_ite TooltipState.clickedTrigger, isFireClose]
    | contentPointerenter pt =>
      simp [step, onContentPointerenter, openTooltip,
        apply_ite TooltipState.clickedTrigger, isFireClose]
    | contentPointerleave pt =>
      simp [step, onContentPointerleave, isFireClose]
    | contentPointerdown =>
      simp [step, onContentPointerdown, openTooltip,
        apply_ite TooltipState.clickedTrigger, isFireClose]
    | keydown k =>
      simp only [step, onKeydown, isFireClose]
      split <;> simp
    | scroll tn te tc =>
      simp only [step, handleScroll, isFireClose]
      split
      · simp
      · split
        · simp
        · split
          · simp [closeTooltip, apply_ite TooltipState.clickedTrigger]
          · simp
    | mousemove els p =>
      simp only [step, onMousemove, isFireClose]
      split
      · simp
      · cases els with
        | none =>
          dsimp only
          split
          · simp [closeTooltip_clickedTrigger_eq]
          · simp
        | some pr =>
          obtain ⟨tr, ct⟩ := pr
          dsimp only
          split_ifs <;> simp [closeTooltip_clickedTrigger_eq]
    | focusout f =>
      simp only [step, onFocusout, isFireClose]
      split <;> simp
    | fireOpen =>
      simp only [step, fireOpenTimeout, isFireClose]
      cases ho : ({ s with clickedTrigger := true } : TooltipState).openTimeout
        with
      | none => simp
      | some t' => simp
    | fireClose =>
      simp only [step, fireCloseTimeout, isFireClose, isBlurCloseTimer]
      cases hc : s.closeTimeout with
      | none => simp [isBlurCloseTimer]
      | some t' =>
        cases hb : t'.isBlur <;>
          simp [isBlurCloseTimer, hb]
  · simp [step, onTriggerFocus]
  · simp [step, handleScroll, closeTooltip]

/-- A mousemove sample inside the grace-area hull, while open with
`openReason = "pointer"`, leaves everything unchanged except recording
`isMouseInTooltipArea = true`. -/
theorem mousemove_in_hull_eq (cfg : TooltipProps) (s : TooltipState)
    (tr ct : Rect) (p : Int × Int)
    (hcfg : cfg.disableHoverableContent = false)
    (hopen : s.open_ = true)
    (hreason : s.openReason = some OpenReason.pointer)
    (hp : isPointerInGraceArea p (makeHullFromElements [tr, ct]) = true) :
    step cfg s (.mousemove (some (tr, ct)) p)
      = { s with isMouseInTooltipArea := true } := by
  simp [step, onMousemove, hopen, hcfg, hp, hreason]

/-- Folding mousemove samples that all stay inside the grace-area hull
over an open pointer-reason state keeps the tooltip open. -/
theorem mousemove_fold_keeps_open (cfg : TooltipProps) (tr ct : Rect)
    (samples : List (Int × Int))
    (hcfg : cfg.disableHoverableContent = false) :
    ∀ s : TooltipState, s.open_ = true →
      s.openReason = some OpenReason.pointer →
      (∀ q ∈ samples,
        isPointerInGraceArea q (makeHullFromElements [tr, ct]) = true) →
      (samples.foldl
        (fun st q => step cfg st (.mousemove (some (tr, ct)) q)) s).open_
        = true := by
  induction samples with
  | nil =>
    intro s hopen _ _
    exact hopen
  | cons q qs ih =>
    intro s hopen hreason hq
    rw [List.foldl_cons,
      mousemove_in_hull_eq cfg s tr ct q hcfg hopen hreason
        (hq q (List.mem_cons_self ..))]
    exact ih _ hopen hreason (fun q' hq' => hq q' (List.mem_cons_of_mem _ hq'))

/-- C6: while the tooltip is open with `openReason = "pointer"` (and
hoverable content enabled), a mousemove sample lying inside the convex
hull of the trigger and content rectangles never initiates a close — the
tooltip stays open and neither timer is touched — and a whole path of
samples that all stay inside the hull keeps the tooltip open throughout;
points inside either rectangle are inside the hull, so this covers them
too. -/
theorem tooltip_grace_area_no_close (cfg : TooltipProps) (s : TooltipState)
    (tr ct : Rect) (p : Int × Int) (samples : List (Int × Int))
    (hcfg : cfg.disableHoverableContent = false)
    (hopen : s.open_ = true)
    (hreason : s.openReason = some OpenReason.pointer)
    (hp : isPointerInGraceArea p (makeHullFromElements [tr, ct]) = true)
    (hsamples : ∀ q ∈ samples,
      isPointerInGraceArea q (makeHullFromElements [tr, ct]) = true) :
    (step cfg s (.mousemove (some (tr, ct)) p)).open_ = true ∧
    (step cfg s (.mousemove (some (tr, ct)) p)).closeTimeout
      = s.closeTimeout ∧
    (step cfg s (.mousemove (some (tr, ct)) p)).openTimeout
      = s.openTimeout ∧
    (samples.foldl
      (fun st q => step cfg st (.mousemove (some (tr, ct)) q)) s).open_
      = true := by
  rw [mousemove_in_hull_eq cfg s tr ct p hcfg hopen hreason hp]
  exact ⟨hopen, rfl, rfl,
    mousemove_fold_keeps_open cfg tr ct samples hcfg s hopen hreason hsamples⟩

/-- The spec's example trigger rectangle: (0,0)-(50,20). -/
def rectA : Rect := ⟨0, 0, 50, 20⟩

/-- The spec's example content rectangle: (0,40)-(50,60). -/
def rectB : Rect := ⟨0, 40, 50, 60⟩

/-- An open tooltip whose open reason is the pointer. -/
def sOpenPointer : TooltipState :=
  { initialState with open_ := true, openReason := some OpenReason.pointer }

/-- C6 witness: the spec's concrete crossing — trigger (0,0)-(50,20),
content (0,40)-(50,60), straight-line samples (25,10), (25,30), (25,50) —
stays inside the hull (the middle sample is in the gap, outside both
rectangles) and keeps the tooltip open throughout. -/
theorem tooltip_grace_area_no_close_witness :
    isPointerInGraceArea (25, 30) (makeHullFromElements [rectA, rectB])
      = true ∧
    isPointerInGraceArea (25, 30) (makeHullFromElements [rectA]) = false ∧
    isPointerInGraceArea (25, 30) (makeHullFromElements [rectB]) = false ∧
    (([((25 : Int), (10 : Int)), (25, 30), (25, 50)]).foldl
      (fun st q => step defaultProps st (.mousemove (some (rectA, rectB)) q))
      sOpenPointer).open_ = true :=
  ⟨by decide, by decide, by decide,
    (tooltip_grace_area_no_close defaultProps sOpenPointer rectA rectB
      (25, 30) [(25, 10), (25, 30), (25, 50)] rfl rfl rfl (by decide)
      (by decide)).2.2.2⟩

end Melt
